import Mathlib

/-!
Verification of the sqlite-vec Swift shim header
(`Packages/SqliteVec/Sources/CSqliteVec/include/shim.h`).

The header defines three pure byte-size helpers over a signed `int`
dimensionality (cast to the unsigned `size_t` before arithmetic), a
registration pass-through to the external extension's entry point
`sqlite3_vec_init`, and an accessor returning the external version-string
constant `SQLITE_VEC_VERSION`.

Machine integers are embedded as mathematical integers with explicit
reduction modulo 2^64 wherever `size_t` arithmetic occurs.  The external
entry point and the version constant live outside this repository, so they
are taken as parameters of the embedded functions.
-/

namespace SqliteVecShim

/-- Number of values of the C `size_t` type (64-bit target). -/
def szBound : Nat := 2 ^ 64

/-- Smallest value of the C `int` type (32-bit). -/
def INT_MIN : Int := -(2 ^ 31)

/-- Largest value of the C `int` type (32-bit). -/
def INT_MAX : Int := 2 ^ 31 - 1

/-- The C cast `(size_t)dimensions`: conversion of a signed integer to the
unsigned 64-bit `size_t`, i.e. reduction modulo 2^64. -/
def intToSizeT (d : Int) : Nat := (d % (2 ^ 64 : Int)).toNat

/-- `static inline size_t sqlite_vec_float32_byte_size(int dimensions) {
return (size_t)dimensions * sizeof(float); }` with `sizeof(float) = 4`;
the multiplication is `size_t` arithmetic, hence modulo 2^64. -/
def sqlite_vec_float32_byte_size (dimensions : Int) : Nat :=
  intToSizeT dimensions * 4 % szBound

/-- `static inline size_t sqlite_vec_int8_byte_size(int dimensions) {
return (size_t)dimensions * sizeof(int8_t); }` with `sizeof(int8_t) = 1`. -/
def sqlite_vec_int8_byte_size (dimensions : Int) : Nat :=
  intToSizeT dimensions * 1 % szBound

/-- `static inline size_t sqlite_vec_binary_byte_size(int dimensions) {
return ((size_t)dimensions + 7) / 8; }`; the addition is `size_t`
arithmetic, hence modulo 2^64, and the division is `size_t` division. -/
def sqlite_vec_binary_byte_size (dimensions : Int) : Nat :=
  (intToSizeT dimensions + 7) % szBound / 8

/-- Opaque database connection handle (`sqlite3 *`), externally owned. -/
structure Sqlite3 where
  id : Nat
deriving DecidableEq

/-- Opaque `sqlite3_api_routines` table, only ever passed as NULL here. -/
structure ApiRoutines where
  id : Nat
deriving DecidableEq

/-- Type of the external extension's entry point
`sqlite3_vec_init(sqlite3 *db, char **pzErrMsg, const sqlite3_api_routines *pApi)`:
it receives the handle and two nullable pointer parameters and returns an
integer status code.  The entry point itself is external to this
repository, so registration is parametrised over it. -/
def VecInitFn : Type := Sqlite3 → Option String → Option ApiRoutines → Int

/-- `static inline int sqlite_vec_register(sqlite3 *db) {
return sqlite3_vec_init(db, NULL, NULL); }` -/
def sqlite_vec_register (sqlite3_vec_init : VecInitFn) (db : Sqlite3) : Int :=
  sqlite3_vec_init db none none

/-- `static inline const char* sqlite_vec_version(void) {
return SQLITE_VEC_VERSION; }`; the string constant `SQLITE_VEC_VERSION`
is defined by the external extension header, so it is a parameter. -/
def sqlite_vec_version (SQLITE_VEC_VERSION : String) : String :=
  SQLITE_VEC_VERSION

/-- The closed enumeration of vector encodings from the spec's data model. -/
inductive VectorEncoding
  | float32
  | int8
  | binaryBit
deriving DecidableEq

/-- The dispatching entry point `byteSize(encoding, dimensions)`: the spec
allows either one entry point per encoding or a single dispatcher over the
three shim functions. -/
def byteSize : VectorEncoding → Int → Nat
  | .float32, d => sqlite_vec_float32_byte_size d
  | .int8, d => sqlite_vec_int8_byte_size d
  | .binaryBit, d => sqlite_vec_binary_byte_size d

/- Helper lemmas shared by the claim theorems. -/

theorem intToSizeT_of_nonneg (d : Int) (h0 : 0 ≤ d) (h1 : d < 2 ^ 64) :
    intToSizeT d = d.toNat := by
  unfold intToSizeT
  omega

theorem intToSizeT_of_neg (d : Int) (h0 : -(2 ^ 64) ≤ d) (h1 : d < 0) :
    intToSizeT d = (2 ^ 64 + d).toNat := by
  unfold intToSizeT
  omega

theorem float32_eq (d : Int) (h0 : 0 ≤ d) (h1 : d ≤ INT_MAX) :
    sqlite_vec_float32_byte_size d = 4 * d.toNat := by
  unfold sqlite_vec_float32_byte_size szBound
  rw [intToSizeT_of_nonneg d h0 (by unfold INT_MAX at h1; omega)]
  unfold INT_MAX at h1
  omega

theorem int8_eq (d : Int) (h0 : 0 ≤ d) (h1 : d ≤ INT_MAX) :
    sqlite_vec_int8_byte_size d = d.toNat := by
  unfold sqlite_vec_int8_byte_size szBound
  rw [intToSizeT_of_nonneg d h0 (by unfold INT_MAX at h1; omega)]
  unfold INT_MAX at h1
  omega

theorem binary_eq (d : Int) (h0 : 0 ≤ d) (h1 : d ≤ INT_MAX) :
    sqlite_vec_binary_byte_size d = (d.toNat + 7) / 8 := by
  unfold sqlite_vec_binary_byte_size szBound
  rw [intToSizeT_of_nonneg d h0 (by unfold INT_MAX at h1; omega)]
  unfold INT_MAX at h1
  omega

/-- Claim C1: for every non-negative `int` dimensionality d,
`sqlite_vec_binary_byte_size d` is the rounded-up byte count `ceil(d/8)`
(written `(d + 7) / 8` over naturals); in particular it returns k at
d = 8k, 1 at d = 1 and d = 7, and 2 at d = 9. -/
theorem binary_byte_size_is_ceil_div8 :
    (∀ d : Int, 0 ≤ d → d ≤ INT_MAX →
      sqlite_vec_binary_byte_size d = (d.toNat + 7) / 8) ∧
    (∀ k : Int, 0 ≤ k → 8 * k ≤ INT_MAX →
      sqlite_vec_binary_byte_size (8 * k) = k.toNat) ∧
    sqlite_vec_binary_byte_size 1 = 1 ∧
    sqlite_vec_binary_byte_size 7 = 1 ∧
    sqlite_vec_binary_byte_size 9 = 2 := by
  refine ⟨fun d h0 h1 => binary_eq d h0 h1, fun k h0 h1 => ?_, ?_, ?_, ?_⟩
  · rw [binary_eq (8 * k) (by omega) h1]
    omega
  · rw [binary_eq 1 (by decide) (by decide)]
    decide
  · rw [binary_eq 7 (by decide) (by decide)]
    decide
  · rw [binary_eq 9 (by decide) (by decide)]
    decide

/-- Witness for C1 at the concrete dimensionality 10. -/
theorem binary_byte_size_is_ceil_div8_witness :
    sqlite_vec_binary_byte_size 10 = ((10 : Int).toNat + 7) / 8 ∧
    ((10 : Int).toNat + 7) / 8 = 2 :=
  ⟨binary_byte_size_is_ceil_div8.1 10 (by decide) (by decide), by decide⟩

/-- Claim C2: for every non-negative `int` dimensionality d,
`sqlite_vec_float32_byte_size d` is exactly 4 * d; in particular 384 bytes
of dimensionality give 1536. -/
theorem float32_byte_size_is_4d :
    (∀ d : Int, 0 ≤ d → d ≤ INT_MAX →
      sqlite_vec_float32_byte_size d = 4 * d.toNat) ∧
    sqlite_vec_float32_byte_size 384 = 1536 := by
  refine ⟨fun d h0 h1 => float32_eq d h0 h1, ?_⟩
  rw [float32_eq 384 (by decide) (by decide)]
  decide

/-- Witness for C2 at the concrete dimensionality 2. -/
theorem float32_byte_size_is_4d_witness :
    sqlite_vec_float32_byte_size 2 = 4 * (2 : Int).toNat ∧
    4 * (2 : Int).toNat = 8 :=
  ⟨float32_byte_size_is_4d.1 2 (by decide) (by decide), by decide⟩

/-- Claim C3: for every non-negative `int` dimensionality d,
`sqlite_vec_int8_byte_size d` is exactly d. -/
theorem int8_byte_size_is_d (d : Int) (h0 : 0 ≤ d) (h1 : d ≤ INT_MAX) :
    sqlite_vec_int8_byte_size d = d.toNat :=
  int8_eq d h0 h1

/-- Witness for C3 at the concrete dimensionality 5. -/
theorem int8_byte_size_is_d_witness :
    sqlite_vec_int8_byte_size 5 = (5 : Int).toNat ∧ (5 : Int).toNat = 5 :=
  ⟨int8_byte_size_is_d 5 (by decide) (by decide), by decide⟩

/-- Claim C4: `sqlite_vec_register db` calls the extension's entry point
with the same handle and NULL for both the error-message out-parameter and
the API-routines parameter, and returns that entry point's status code
unchanged, with no interpretation, retry, or translation. -/
theorem register_forwards_to_init (sqlite3_vec_init : VecInitFn) (db : Sqlite3) :
    sqlite_vec_register sqlite3_vec_init db = sqlite3_vec_init db none none :=
  rfl

/-- Claim C5: for every negative `int` dimensionality d, each byte-size
helper first converts d to `size_t` (yielding 2^64 + d) and then applies
its formula with arithmetic modulo 2^64: Float32 gives 2^64 + 4d, Int8
gives 2^64 + d, and BinaryBit gives the wrapped `(2^64 + d + 7) mod 2^64`
divided by 8. -/
theorem negative_dims_modular (d : Int) (h0 : INT_MIN ≤ d) (h1 : d < 0) :
    intToSizeT d = (2 ^ 64 + d).toNat ∧
    sqlite_vec_float32_byte_size d = (2 ^ 64 + 4 * d).toNat ∧
    sqlite_vec_int8_byte_size d = (2 ^ 64 + d).toNat ∧
    sqlite_vec_binary_byte_size d = ((2 ^ 64 + d + 7) % 2 ^ 64).toNat / 8 := by
  unfold INT_MIN at h0
  have hx := intToSizeT_of_neg d (by omega) h1
  refine ⟨hx, ?_, ?_, ?_⟩
  · unfold sqlite_vec_float32_byte_size szBound
    rw [hx]
    omega
  · unfold sqlite_vec_int8_byte_size szBound
    rw [hx]
    omega
  · unfold sqlite_vec_binary_byte_size szBound
    rw [hx]
    omega

/-- Witness for C5 at the concrete dimensionality -1. -/
theorem negative_dims_modular_witness :
    sqlite_vec_binary_byte_size (-1) =
      (((2 : Int) ^ 64 + (-1) + 7) % 2 ^ 64).toNat / 8 ∧
    (((2 : Int) ^ 64 + (-1) + 7) % 2 ^ 64).toNat / 8 = 0 :=
  ⟨(negative_dims_modular (-1) (by decide) (by decide)).2.2.2, by decide⟩

/-- Claim C6: at dimensionality 0, all three encodings yield byte size 0. -/
theorem byte_size_zero :
    byteSize .float32 0 = 0 ∧ byteSize .int8 0 = 0 ∧ byteSize .binaryBit 0 = 0 := by
  refine ⟨?_, ?_, ?_⟩ <;> decide

/-- Claim C7: each byte-size helper is a total function with no failure
path: every `int` input produces a defined natural number strictly below
2^64, the range of the `size_t` result type. -/
theorem byte_size_total (e : VectorEncoding) (d : Int) :
    byteSize e d < szBound := by
  cases e <;>
    simp only [byteSize, sqlite_vec_float32_byte_size, sqlite_vec_int8_byte_size,
      sqlite_vec_binary_byte_size] <;>
    unfold szBound <;>
    omega

/-- Claim C8: byte size depends only on the (encoding, dimensionality)
arguments: two calls with identical arguments return identical results,
with no hidden or external state. -/
theorem byte_size_deterministic (e e' : VectorEncoding) (d d' : Int)
    (he : e = e') (hd : d = d') : byteSize e d = byteSize e' d' := by
  rw [he, hd]

/-- Witness for C8 at the concrete arguments (Float32, 3). -/
theorem byte_size_deterministic_witness :
    byteSize .float32 3 = byteSize .float32 3 :=
  byte_size_deterministic .float32 .float32 3 3 rfl rfl

/-- Claim C9: `sqlite_vec_version` returns the extension's version-string
constant unchanged, with no parsing or validation, and every call returns
the same value. -/
theorem version_returns_constant (v : String) :
    sqlite_vec_version v = v ∧ sqlite_vec_version v = sqlite_vec_version v :=
  ⟨rfl, rfl⟩

/-- Claim C10: for every non-negative `int` dimensionality, the encodings'
byte sizes are ordered BinaryBit ≤ Int8 ≤ Float32, and each encoding's
byte size is monotone non-decreasing in the dimensionality. -/
theorem byte_size_ordered_and_monotone :
    (∀ d : Int, 0 ≤ d → d ≤ INT_MAX →
      byteSize .binaryBit d ≤ byteSize .int8 d ∧
      byteSize .int8 d ≤ byteSize .float32 d) ∧
    (∀ (e : VectorEncoding) (d d' : Int), 0 ≤ d → d ≤ d' → d' ≤ INT_MAX →
      byteSize e d ≤ byteSize e d') := by
  constructor
  · intro d h0 h1
    simp only [byteSize]
    rw [binary_eq d h0 h1, int8_eq d h0 h1, float32_eq d h0 h1]
    omega
  · intro e d d' h0 hdd h1
    have h0' : 0 ≤ d' := le_trans h0 hdd
    have hd1 : d ≤ INT_MAX := le_trans hdd h1
    cases e <;> simp only [byteSize]
    · rw [float32_eq d h0 hd1, float32_eq d' h0' h1]
      omega
    · rw [int8_eq d h0 hd1, int8_eq d' h0' h1]
      omega
    · rw [binary_eq d h0 hd1, binary_eq d' h0' h1]
      omega

/-- Witness for C10 at the concrete dimensionality 5. -/
theorem byte_size_ordered_and_monotone_witness :
    byteSize .binaryBit 5 ≤ byteSize .int8 5 ∧
    byteSize .int8 5 ≤ byteSize .float32 5 :=
  byte_size_ordered_and_monotone.1 5 (by decide) (by decide)

end SqliteVecShim
